import Mathlib

/-
Verification development for the xn2v neural-network trainer layer
(src/xn2v/neural_networks.py): a shallow embedding of the data model,
the architecture builders (MLP, FFNN, MultiModalFFNN) and the fit
protocol of the base class NeuralNetwork, with theorems settling the
behavioural claims about them.
-/

/-- Hyperparameters stored by NeuralNetwork.__init__
(max_epochs, batch_size, monitor, patience). -/
structure Hyper where
  max_epochs : Nat
  batch_size : Nat
  monitor : String
  patience : Nat
deriving DecidableEq

/-- The default hyperparameters of NeuralNetwork.__init__:
max_epochs=1000, batch_size=64, monitor="auprc", patience=10. -/
def defaultHyper : Hyper := Hyper.mk 1000 64 "auprc" 10

/-- Keras layer specifications as they are constructed in the source file:
Input(shape), Dense(units, activation=...), BatchNormalization(),
Activation(fn), Dropout(rate). A Dense without an activation keyword is
modelled with activation `none`. -/
inductive KLayer where
  | input (shape : Nat)
  | dense (units : Nat) (activation : Option String)
  | batchNormalization
  | activation (fn : String)
  | dropout (rate : Rat)
deriving DecidableEq

/-- Compiled metrics as constructed in NeuralNetwork._compile_model:
plain string metrics and AUC(curve=..., name=...) metrics. -/
inductive KMetric where
  | str (s : String)
  | auc (curve : String) (name : String)
deriving DecidableEq

/-- The reported name of a compiled metric. -/
def metricName : KMetric → String
  | KMetric.str s => s
  | KMetric.auc _ n => n

/-- The compile configuration of NeuralNetwork._compile_model. -/
structure CompileConfig where
  optimizer : String
  loss : String
  metrics : List KMetric
deriving DecidableEq

/-- NeuralNetwork._compile_model: optimizer "nadam", loss
"binary_crossentropy", metrics ["accuracy", AUC(curve="ROC",
name="auroc"), AUC(curve="PR", name="auroc")] exactly as written in the
source (the PR-curve AUC is given the name "auroc"). -/
def compile_config : CompileConfig :=
  CompileConfig.mk "nadam" "binary_crossentropy"
    [KMetric.str "accuracy", KMetric.auc "ROC" "auroc", KMetric.auc "PR" "auroc"]

/-- MLP._build_model: Sequential([Input(shape), Dense(128, relu),
Dense(128, relu), Dense(64, relu), Dense(32, relu), Dense(16, relu),
Dense(1, sigmoid)]). -/
def MLP._build_model (input_shape : Nat) : List KLayer :=
  [KLayer.input input_shape,
   KLayer.dense 128 (some "relu"),
   KLayer.dense 128 (some "relu"),
   KLayer.dense 64 (some "relu"),
   KLayer.dense 32 (some "relu"),
   KLayer.dense 16 (some "relu"),
   KLayer.dense 1 (some "sigmoid")]

/-- FFNN._build_model: the Sequential layer stack exactly as listed in
the source. -/
def FFNN._build_model (input_shape : Nat) : List KLayer :=
  [KLayer.input input_shape,
   KLayer.dense 128 (some "relu"),
   KLayer.dense 128 none,
   KLayer.batchNormalization,
   KLayer.activation "relu",
   KLayer.dropout (3 / 10),
   KLayer.dense 64 (some "relu"),
   KLayer.dense 64 (some "relu"),
   KLayer.batchNormalization,
   KLayer.activation "relu",
   KLayer.dropout (3 / 10),
   KLayer.dense 32 (some "relu"),
   KLayer.dense 32 (some "relu"),
   KLayer.batchNormalization,
   KLayer.activation "relu",
   KLayer.dropout (3 / 10),
   KLayer.dense 16 (some "relu"),
   KLayer.dense 8 (some "relu"),
   KLayer.dense 1 (some "sigmoid")]

/-- A node of the functional (graph-style) Keras model used by
MultiModalFFNN: a named Input, a layer applied to a previous node, or a
Concatenate of two nodes. -/
inductive Node where
  | input (shape : Nat) (name : String)
  | layer (l : KLayer) (prev : Node)
  | concatenate (left right : Node)

/-- MultiModalFFNN._sub_module: the chain of layers applied to `previous`,
exactly as in the source (ends with BatchNormalization then
Activation("relu"); no Dropout after the last block). -/
def MultiModalFFNN._sub_module (previous : Node) : Node :=
  let h1 := Node.layer (KLayer.dense 128 (some "relu")) previous
  let h2 := Node.layer (KLayer.dense 128 none) h1
  let h3 := Node.layer KLayer.batchNormalization h2
  let h4 := Node.layer (KLayer.activation "relu") h3
  let h5 := Node.layer (KLayer.dropout (3 / 10)) h4
  let h6 := Node.layer (KLayer.dense 64 (some "relu")) h5
  let h7 := Node.layer (KLayer.dense 64 (some "relu")) h6
  let h8 := Node.layer KLayer.batchNormalization h7
  let h9 := Node.layer (KLayer.activation "relu") h8
  let h10 := Node.layer (KLayer.dropout (3 / 10)) h9
  let h11 := Node.layer (KLayer.dense 32 (some "relu")) h10
  let h12 := Node.layer (KLayer.dense 32 (some "relu")) h11
  let h13 := Node.layer KLayer.batchNormalization h12
  Node.layer (KLayer.activation "relu") h13

/-- MultiModalFFNN._build_model: two named inputs, one _sub_module per
input, Concatenate, then the head stack ending in Dense(1, sigmoid),
exactly as in the source. -/
def MultiModalFFNN._build_model (input_shape : Nat) : Node :=
  let left_input := Node.input input_shape "left_input"
  let right_input := Node.input input_shape "right_input"
  let left_module := MultiModalFFNN._sub_module left_input
  let right_module := MultiModalFFNN._sub_module right_input
  let middle := Node.concatenate left_module right_module
  let h1 := Node.layer (KLayer.dropout (3 / 10)) middle
  let h2 := Node.layer (KLayer.dense 64 (some "relu")) h1
  let h3 := Node.layer (KLayer.dense 64 (some "relu")) h2
  let h4 := Node.layer KLayer.batchNormalization h3
  let h5 := Node.layer (KLayer.activation "relu") h4
  let h6 := Node.layer (KLayer.dropout (3 / 10)) h5
  let h7 := Node.layer (KLayer.dense 32 (some "relu")) h6
  let h8 := Node.layer (KLayer.dense 32 (some "relu")) h7
  let h9 := Node.layer KLayer.batchNormalization h8
  let h10 := Node.layer (KLayer.activation "relu") h9
  let h11 := Node.layer (KLayer.dense 16 (some "relu")) h10
  let h12 := Node.layer (KLayer.dense 8 (some "relu")) h11
  Node.layer (KLayer.dense 1 (some "sigmoid")) h12

/-- The list of layers applied along a node's chain, from the input
outward (stops at an input or a concatenation). -/
def chainOf : Node → List KLayer
  | Node.input _ _ => []
  | Node.layer l p => chainOf p ++ [l]
  | Node.concatenate _ _ => []

/-- The output width of a node: a Dense sets it, other layers preserve
it, Concatenate adds the widths of its arguments. -/
def outWidth : Node → Nat
  | Node.input s _ => s
  | Node.layer (KLayer.dense u _) _ => u
  | Node.layer _ p => outWidth p
  | Node.concatenate l r => outWidth l + outWidth r

/-- Apply a list of layers in order on top of a node. -/
def applyChain (ls : List KLayer) (n : Node) : Node :=
  List.foldl (fun acc l => Node.layer l acc) n ls

/-- Whether a layer is a BatchNormalization stage. -/
def isBatchNorm : KLayer → Bool
  | KLayer.batchNormalization => true
  | _ => false

/-- Whether a layer is a Dropout stage. -/
def isDropout : KLayer → Bool
  | KLayer.dropout _ => true
  | _ => false

/-- The projection stages of a sequential stack, as (units, activation)
pairs in order. -/
def denseStages (ls : List KLayer) : List (Nat × Option String) :=
  List.filterMap
    (fun l => match l with
      | KLayer.dense u a => some (u, a)
      | _ => none) ls

/-- Follows the spec words of the deep-variant claim, not the source:
checks that every projection standing immediately before a
normalization stage (i.e. the second projection of each block that is
closed by normalization) carries no non-linearity. -/
def denseBeforeBNBare : List KLayer → Bool
  | KLayer.dense _ a :: KLayer.batchNormalization :: rest =>
      (a == none) && denseBeforeBNBare rest
  | _ :: rest => denseBeforeBNBare rest
  | [] => true

/-- Errors surfaced by the fit protocol: invalidConfiguration models the
ValueError raised by NeuralNetwork.fit's monitor/validation gate;
shapeMismatch models the shape error of the execution engine. -/
inductive FitError where
  | invalidConfiguration
  | shapeMismatch
deriving DecidableEq

/-- A dataset handed to fit, abstracted to the leading dimensions the
shape check inspects: one entry of xRows per input tensor, and the
leading dimension of the label vector. -/
structure KDataset where
  xRows : List Nat
  yRows : Nat
deriving DecidableEq

/-- Modelled from the spec: the tabular result of a training run of the
opaque execution engine (the repository delegates the loop to
keras' Model.fit, which is not part of this repository's source).
`history` has one row (here: the epoch index) per completed epoch;
`finalParamsEpoch` is the epoch whose parameters the model holds when
fit returns. -/
structure EngineResult where
  history : List Nat
  finalParamsEpoch : Nat
deriving DecidableEq

/-- The EarlyStopping callback as constructed in NeuralNetwork.fit:
EarlyStopping(self._monitor, patience=self._patience). The
restore_best_weights field keeps the engine's default, false, since the
source does not pass it. -/
structure EarlyStoppingCB where
  monitor : String
  patience : Nat
  restore_best_weights : Bool
deriving DecidableEq

/-- The EarlyStopping construction of NeuralNetwork.fit. -/
def mkEarlyStopping (monitor : String) (patience : Nat) : EarlyStoppingCB :=
  EarlyStoppingCB.mk monitor patience false

/-- Modelled from the spec: whether a monitored-metric value improves on
the best value seen so far (none = no epoch finished yet, so the first
epoch always improves). -/
def improves : Option Int → Int → Bool
  | none, _ => true
  | some b, v => decide (b < v)

/-- Modelled from the spec: the early-stopping training loop of the
opaque execution engine. `metric idx` is the monitored metric at epoch
index idx; the loop runs for at most the remaining fuel many epochs,
resets the wait counter on improvement, and stops once the metric has
failed to improve for `patience` consecutive epochs. Returns the number
of epochs completed. -/
def esLoop (metric : Nat → Int) (patience : Nat) :
    Nat → Nat → Option Int → Nat → Nat
  | 0, idx, _, _ => idx
  | rem + 1, idx, best, wait =>
    if improves best (metric idx) then
      esLoop metric patience rem (idx + 1) (some (metric idx)) 0
    else if patience ≤ wait + 1 then
      idx + 1
    else
      esLoop metric patience rem (idx + 1) best (wait + 1)

/-- Modelled from the spec: the number of epochs a training run
completes under early stopping, out of at most maxEpochs. -/
def epochsRun (metric : Nat → Int) (maxEpochs patience : Nat) : Nat :=
  esLoop metric patience maxEpochs 0 none 0

/-- Modelled from the spec: the epoch index with the best monitored
metric among the first n epochs (used only when a restore-best policy is
requested). -/
def bestEpoch (metric : Nat → Int) (n : Nat) : Nat :=
  List.foldl (fun acc i => if decide (metric acc < metric i) then i else acc) 0
    (List.range n)

/-- Whether the leading dimension of every input tensor agrees with the
leading dimension of the labels. -/
def shapesAgree (d : KDataset) : Bool :=
  List.all d.xRows (fun m => m == d.yRows)

/-- Modelled from the spec: the opaque execution engine's fit call
(keras Model.fit, external to this repository). It rejects a
feature/label leading-dimension disagreement, in the training or the
validation data, before entering the training loop; otherwise it runs
the early-stopping loop, emits one history row per completed epoch, and
leaves the parameters of the last epoch in the model unless the
callback asks to restore the best epoch. -/
def engineFit (metric : Nat → Int) (train : KDataset) (validation : Option KDataset)
    (epochs batch_size : Nat) (shuffle : Bool) (es : EarlyStoppingCB) :
    Except FitError EngineResult :=
  let n := epochsRun metric epochs es.patience
  let result := EngineResult.mk (List.range n)
    (if es.restore_best_weights then bestEpoch metric n else n)
  if shapesAgree train = false then Except.error FitError.shapeMismatch
  else
    match validation with
    | some v =>
        if shapesAgree v = false then Except.error FitError.shapeMismatch
        else Except.ok result
    | none => Except.ok result

/-- str.startswith(pre) as used by the source's monitor gate, computed
on the underlying character lists. -/
def strStartsWith (s pre : String) : Bool :=
  List.isPrefixOf pre.data s.data

/-- NeuralNetwork.fit: raises ValueError (invalidConfiguration) when no
test data is given but the monitor metric starts with "val_"; otherwise
delegates to the engine's fit with epochs=max_epochs,
batch_size=batch_size, validation=test, shuffle=True and an
EarlyStopping(monitor, patience) callback, returning the history. -/
def NeuralNetwork.fit (hp : Hyper) (metric : Nat → Int) (train : KDataset)
    (test : Option KDataset) : Except FitError EngineResult :=
  if Option.isNone test && strStartsWith hp.monitor "val_" then
    Except.error FitError.invalidConfiguration
  else
    engineFit metric train test hp.max_epochs hp.batch_size true
      (mkEarlyStopping hp.monitor hp.patience)

/-- MultiModalFFNN.fit: packs the two positional feature arrays plus
labels (abstracted to their leading dimensions) into the two-input
dataset the generic fit expects; validation data is forwarded only when
all three of left_input_test, right_input_test, output_test are
non-None, otherwise test is None. -/
def MultiModalFFNN.fit (hp : Hyper) (metric : Nat → Int)
    (left_input_train right_input_train output_train : Nat)
    (left_input_test right_input_test output_test : Option Nat) :
    Except FitError EngineResult :=
  let train := KDataset.mk [left_input_train, right_input_train] output_train
  let test : Option KDataset :=
    match left_input_test, right_input_test, output_test with
    | some l, some r, some y => some (KDataset.mk [l, r] y)
    | _, _, _ => none
  NeuralNetwork.fit hp metric train test

/-- The error raised by the base class NeuralNetwork._build_model. -/
inductive ConstructError where
  | notImplemented
deriving DecidableEq

/-- A fully constructed trainer: hyperparameters plus the built model. -/
structure Trainer where
  hyper : Hyper
  model : List KLayer

/-- NeuralNetwork._build_model of the base class: raises
NotImplementedError unconditionally. -/
def NeuralNetwork._build_model : Except ConstructError (List KLayer) :=
  Except.error ConstructError.notImplemented

/-- NeuralNetwork.__init__: stores the hyperparameters, then calls
self._build_model() (which for the base class raises), then
_compile_model; construction of the base class therefore never yields a
trainer. -/
def NeuralNetwork.init (hp : Hyper) : Except ConstructError Trainer :=
  Except.map (fun m => Trainer.mk hp m) NeuralNetwork._build_model

/-- C2: the trainer compiles against binary cross-entropy, but the fixed
metric set is ["accuracy", AUC named "auroc", AUC named "auroc"]: the
PR-curve metric is also named "auroc", so "auprc" — the default monitor
metric — is not the name of any compiled metric. This evaluates the
source's _compile_model and exhibits the divergence from the claim. -/
theorem compile_pr_metric_misnamed :
    compile_config.loss = "binary_crossentropy" ∧
    compile_config.metrics.get? 2 = some (KMetric.auc "PR" "auroc") ∧
    List.map metricName compile_config.metrics = ["accuracy", "auroc", "auroc"] ∧
    List.contains (List.map metricName compile_config.metrics) "auprc" = false ∧
    defaultHyper.monitor = "auprc" := by
  refine And.intro rfl (And.intro rfl (And.intro rfl (And.intro ?_ rfl)))
  decide

/-- C5 counterexample: in the deep single-input architecture built for
input dimension 50, it is false that every projection immediately
preceding a normalization stage carries no non-linearity (the 64- and
32-wide blocks close with Dense(64, relu) and Dense(32, relu) directly
before BatchNormalization). -/
theorem ffnn_second_projection_counterexample :
    denseBeforeBNBare (FFNN._build_model 50) = false := by decide

/-- C5 amended: FFNN is the two-projection blocks 128/64/32, each block
followed in order by normalization, an explicit non-linearity and a
dropout stage of rate 0.3; only the widest (128) block's second
projection lacks a non-linearity, while the second projections of the
64 and 32 blocks carry a relu, and the tail narrows 16 to 8 into the
sigmoid scalar output. -/
theorem ffnn_structure (s : Nat) :
    FFNN._build_model s =
      [KLayer.input s,
       KLayer.dense 128 (some "relu"),
       KLayer.dense 128 none,
       KLayer.batchNormalization,
       KLayer.activation "relu",
       KLayer.dropout (3 / 10),
       KLayer.dense 64 (some "relu"),
       KLayer.dense 64 (some "relu"),
       KLayer.batchNormalization,
       KLayer.activation "relu",
       KLayer.dropout (3 / 10),
       KLayer.dense 32 (some "relu"),
       KLayer.dense 32 (some "relu"),
       KLayer.batchNormalization,
       KLayer.activation "relu",
       KLayer.dropout (3 / 10),
       KLayer.dense 16 (some "relu"),
       KLayer.dense 8 (some "relu"),
       KLayer.dense 1 (some "sigmoid")] ∧
    (FFNN._build_model s)[2]? = some (KLayer.dense 128 none) ∧
    (FFNN._build_model s)[7]? = some (KLayer.dense 64 (some "relu")) ∧
    (FFNN._build_model s)[12]? = some (KLayer.dense 32 (some "relu")) ∧
    (FFNN._build_model s).countP isBatchNorm = 3 ∧
    (FFNN._build_model s).countP isDropout = 3 ∧
    denseStages (FFNN._build_model s) =
      [(128, some "relu"), (128, none), (64, some "relu"), (64, some "relu"),
       (32, some "relu"), (32, some "relu"), (16, some "relu"), (8, some "relu"),
       (1, some "sigmoid")] :=
  ⟨rfl, rfl, rfl, rfl, rfl, rfl, rfl⟩

/-- C6: the shallow single-input architecture is a strictly linear chain
of five relu-activated projections of widths 128, 128, 64, 32, 16,
terminating in a single sigmoid-activated scalar output, with no
normalization and no dropout stages. -/
theorem mlp_structure (s : Nat) :
    MLP._build_model s =
      [KLayer.input s,
       KLayer.dense 128 (some "relu"),
       KLayer.dense 128 (some "relu"),
       KLayer.dense 64 (some "relu"),
       KLayer.dense 32 (some "relu"),
       KLayer.dense 16 (some "relu"),
       KLayer.dense 1 (some "sigmoid")] ∧
    denseStages (MLP._build_model s) =
      [(128, some "relu"), (128, some "relu"), (64, some "relu"),
       (32, some "relu"), (16, some "relu"), (1, some "sigmoid")] ∧
    (MLP._build_model s).countP isBatchNorm = 0 ∧
    (MLP._build_model s).countP isDropout = 0 :=
  ⟨rfl, rfl, rfl, rfl⟩

/-- C7: the dual-input architecture applies the same sub-module layer
chain to each of the two named inputs (structurally identical
sub-networks), each sub-network ends at a 32-wide representation whose
chain closes with normalization then activation and no dropout, the two
are fused by concatenation into a 64-wide joint representation, and the
whole model, which is the head stack applied on top of that
concatenation, ends in a single sigmoid scalar output. -/
theorem multimodal_structure (s : Nat) :
    MultiModalFFNN._build_model s =
      applyChain
        [KLayer.dropout (3 / 10), KLayer.dense 64 (some "relu"),
         KLayer.dense 64 (some "relu"), KLayer.batchNormalization,
         KLayer.activation "relu", KLayer.dropout (3 / 10),
         KLayer.dense 32 (some "relu"), KLayer.dense 32 (some "relu"),
         KLayer.batchNormalization, KLayer.activation "relu",
         KLayer.dense 16 (some "relu"), KLayer.dense 8 (some "relu"),
         KLayer.dense 1 (some "sigmoid")]
        (Node.concatenate
          (MultiModalFFNN._sub_module (Node.input s "left_input"))
          (MultiModalFFNN._sub_module (Node.input s "right_input"))) ∧
    chainOf (MultiModalFFNN._sub_module (Node.input s "left_input")) =
      chainOf (MultiModalFFNN._sub_module (Node.input s "right_input")) ∧
    chainOf (MultiModalFFNN._sub_module (Node.input s "left_input")) =
      [KLayer.dense 128 (some "relu"), KLayer.dense 128 none,
       KLayer.batchNormalization, KLayer.activation "relu",
       KLayer.dropout (3 / 10), KLayer.dense 64 (some "relu"),
       KLayer.dense 64 (some "relu"), KLayer.batchNormalization,
       KLayer.activation "relu", KLayer.dropout (3 / 10),
       KLayer.dense 32 (some "relu"), KLayer.dense 32 (some "relu"),
       KLayer.batchNormalization, KLayer.activation "relu"] ∧
    outWidth (MultiModalFFNN._sub_module (Node.input s "left_input")) = 32 ∧
    outWidth (MultiModalFFNN._sub_module (Node.input s "right_input")) = 32 ∧
    outWidth (Node.concatenate
      (MultiModalFFNN._sub_module (Node.input s "left_input"))
      (MultiModalFFNN._sub_module (Node.input s "right_input"))) = 64 ∧
    outWidth (MultiModalFFNN._build_model s) = 1 :=
  ⟨rfl, rfl, rfl, rfl, rfl, rfl, rfl⟩

/-- C10: constructing the base trainer class directly fails with
NotImplementedError from the architecture-builder step, for every
hyperparameter set; no base-class trainer value is ever produced. -/
theorem base_init_not_implemented (hp : Hyper) :
    NeuralNetwork.init hp = Except.error ConstructError.notImplemented := rfl

/-- C1: for every trainer and every call to fit, if test is None and the
monitor metric starts with "val_", fit fails with the
invalid-configuration ValueError at the input-validation gate: no call
reaches the engine, so no training happens and no history rows exist. -/
theorem fit_invalid_configuration (hp : Hyper) (metric : Nat → Int)
    (train : KDataset)
    (h : strStartsWith hp.monitor "val_" = true) :
    NeuralNetwork.fit hp metric train none =
      Except.error FitError.invalidConfiguration := by
  simp [NeuralNetwork.fit, h]

/-- C1 witness: the gate fires for a concrete trainer monitoring
"val_auprc" with no test data. -/
theorem fit_invalid_configuration_witness :
    strStartsWith "val_auprc" "val_" = true ∧
    NeuralNetwork.fit (Hyper.mk 1000 64 "val_auprc" 10) (fun _ => 0)
        (KDataset.mk [3] 3) none =
      Except.error FitError.invalidConfiguration :=
  And.intro (by decide)
    (fit_invalid_configuration (Hyper.mk 1000 64 "val_auprc" 10) (fun _ => 0)
      (KDataset.mk [3] 3) (by decide))

/-- C3: calling the fusion architecture's fit with one or two (not all
three) of the validation arguments present produces exactly the same
result as calling it with none of them: partial validation data is
treated as no validation data. -/
theorem multimodal_fit_partial_validation_ignored (hp : Hyper)
    (metric : Nat → Int) (lt rt yt : Nat) (lte rte yte : Option Nat)
    (h : lte.isSome.toNat + rte.isSome.toNat + yte.isSome.toNat = 1 ∨
         lte.isSome.toNat + rte.isSome.toNat + yte.isSome.toNat = 2) :
    MultiModalFFNN.fit hp metric lt rt yt lte rte yte =
      MultiModalFFNN.fit hp metric lt rt yt none none none := by
  rcases lte with _ | l <;> rcases rte with _ | r <;> rcases yte with _ | y <;>
    first
      | ((rcases h with h | h <;> simp at h) <;> done)
      | rfl

/-- C3 witness: supplying only the left validation array behaves exactly
like supplying no validation data. -/
theorem multimodal_fit_partial_validation_ignored_witness :
    ((some 7 : Option Nat).isSome.toNat + (none : Option Nat).isSome.toNat +
        (none : Option Nat).isSome.toNat = 1 ∨
      (some 7 : Option Nat).isSome.toNat + (none : Option Nat).isSome.toNat +
        (none : Option Nat).isSome.toNat = 2) ∧
    MultiModalFFNN.fit (Hyper.mk 3 64 "auprc" 10) (fun _ => 0) 5 5 5
        (some 7) none none =
      MultiModalFFNN.fit (Hyper.mk 3 64 "auprc" 10) (fun _ => 0) 5 5 5
        none none none :=
  And.intro (Or.inl (by decide))
    (multimodal_fit_partial_validation_ignored (Hyper.mk 3 64 "auprc" 10)
      (fun _ => 0) 5 5 5 (some 7) none none (Or.inl (by decide)))

/-- C8 counterexample: at a call whose training feature and label
leading dimensions disagree (3 vs 5) but whose monitor is
validation-prefixed with test None, fit surfaces the
invalid-configuration ValueError, not a shape-mismatch error, so the
claim as universally stated fails. -/
theorem fit_shape_mismatch_counterexample :
    shapesAgree (KDataset.mk [3] 5) = false ∧
    NeuralNetwork.fit (Hyper.mk 1000 64 "val_loss" 10) (fun _ => 0)
        (KDataset.mk [3] 5) none =
      Except.error FitError.invalidConfiguration := by
  refine And.intro (by decide) ?_
  have h : strStartsWith "val_loss" "val_" = true := by decide
  simp [NeuralNetwork.fit, h]

/-- C8 amended: for every call to fit that passes the monitor/validation
gate, if the training feature/label leading dimensions disagree, or
validation data is supplied whose feature/label leading dimensions
disagree, then fit surfaces a shape-mismatch error before the training
loop is entered, so no partial training is performed and no history
rows are produced. -/
theorem fit_shape_mismatch (hp : Hyper) (metric : Nat → Int)
    (train : KDataset) (test : Option KDataset)
    (hgate : (Option.isNone test && strStartsWith hp.monitor "val_") = false)
    (hbad : shapesAgree train = false ∨
            (∃ v, test = some v ∧ shapesAgree v = false)) :
    NeuralNetwork.fit hp metric train test =
      Except.error FitError.shapeMismatch := by
  rcases hbad with h | ⟨v, rfl, hv⟩
  · simp [NeuralNetwork.fit, hgate, engineFit, h]
  · by_cases ht : shapesAgree train = false
    · simp [NeuralNetwork.fit, hgate, engineFit, ht]
    · have ht' : shapesAgree train = true := by
        revert ht; cases shapesAgree train <;> simp
      simp [NeuralNetwork.fit, hgate, engineFit, ht', hv]

/-- C8 witness: a non-validation monitor with mismatched training
leading dimensions (2 features rows vs 3 label rows) yields the
shape-mismatch error. -/
theorem fit_shape_mismatch_witness :
    (Option.isNone (none : Option KDataset) &&
        strStartsWith "auprc" "val_") = false ∧
    shapesAgree (KDataset.mk [2] 3) = false ∧
    NeuralNetwork.fit (Hyper.mk 5 64 "auprc" 10) (fun _ => 0)
        (KDataset.mk [2] 3) none =
      Except.error FitError.shapeMismatch :=
  And.intro (by decide)
    (And.intro (by decide)
      (fit_shape_mismatch (Hyper.mk 5 64 "auprc" 10) (fun _ => 0)
        (KDataset.mk [2] 3) none (by decide) (Or.inl (by decide))))

/-- The loop never runs more epochs than the remaining fuel allows. -/
lemma esLoop_le (metric : Nat → Int) (patience : Nat) :
    ∀ rem idx best wait, esLoop metric patience rem idx best wait ≤ idx + rem := by
  intro rem
  induction rem with
  | zero => intro idx best wait; simp [esLoop]
  | succ n ih =>
      intro idx best wait
      simp only [esLoop]
      by_cases h : improves best (metric idx) = true
      · rw [if_pos h]
        have := ih (idx + 1) (some (metric idx)) 0
        omega
      · rw [if_neg h]
        by_cases h2 : patience ≤ wait + 1
        · rw [if_pos h2]; omega
        · rw [if_neg h2]
          have := ih (idx + 1) best (wait + 1)
          omega

/-- While the metric improves every epoch, the loop runs out its fuel. -/
lemma esLoop_inc_all (metric : Nat → Int) (patience k : Nat)
    (h1 : ∀ i, i + 1 < k → metric i < metric (i + 1)) :
    ∀ rem idx, 1 ≤ idx → idx + rem ≤ k →
      esLoop metric patience rem idx (some (metric (idx - 1))) 0 = idx + rem := by
  intro rem
  induction rem with
  | zero => intro idx _ _; simp [esLoop]
  | succ n ih =>
      intro idx hidx hle
      have hstep : metric (idx - 1) < metric (idx - 1 + 1) := h1 (idx - 1) (by omega)
      have hidx1 : idx - 1 + 1 = idx := by omega
      rw [hidx1] at hstep
      have himp : improves (some (metric (idx - 1))) (metric idx) = true := by
        simp only [improves, decide_eq_true_eq]; exact hstep
      simp only [esLoop]
      rw [himp, if_pos rfl]
      have hm : metric idx = metric (idx + 1 - 1) := by simp
      rw [hm]
      rw [ih (idx + 1) (by omega) (by omega)]
      omega

/-- While the metric improves every epoch, the loop advances to the last
improving epoch k with the best value seen there and a reset wait. -/
lemma esLoop_cross (metric : Nat → Int) (patience k : Nat)
    (h1 : ∀ i, i + 1 < k → metric i < metric (i + 1)) :
    ∀ rem idx, 1 ≤ idx → idx ≤ k → k ≤ idx + rem →
      esLoop metric patience rem idx (some (metric (idx - 1))) 0 =
        esLoop metric patience (rem - (k - idx)) k (some (metric (k - 1))) 0 := by
  intro rem
  induction rem with
  | zero =>
      intro idx h1x hxk hkx
      have hik : idx = k := by omega
      subst hik
      simp
  | succ n ih =>
      intro idx h1x hxk hkx
      by_cases hik : idx = k
      · subst hik
        simp
      · have hstep : metric (idx - 1) < metric (idx - 1 + 1) := h1 (idx - 1) (by omega)
        have hidx1 : idx - 1 + 1 = idx := by omega
        rw [hidx1] at hstep
        have himp : improves (some (metric (idx - 1))) (metric idx) = true := by
          simp only [improves, decide_eq_true_eq]; exact hstep
        simp only [esLoop]
        rw [himp, if_pos rfl]
        have hm : metric idx = metric (idx + 1 - 1) := by simp
        rw [hm]
        rw [ih (idx + 1) (by omega) (by omega) (by omega)]
        have hfuel : n - (k - (idx + 1)) = n + 1 - (k - idx) := by omega
        rw [hfuel]

/-- Once the metric stops improving on the best value b, the loop stops
after the remaining patience is exhausted (or the fuel runs out). -/
lemma esLoop_fail (metric : Nat → Int) (patience : Nat) (b : Int) :
    ∀ rem idx wait, (∀ j, idx ≤ j → metric j ≤ b) → wait < patience →
      esLoop metric patience rem idx (some b) wait =
        idx + min (patience - wait) rem := by
  intro rem
  induction rem with
  | zero => intro idx wait _ _; simp [esLoop]
  | succ n ih =>
      intro idx wait hall hw
      have hv : metric idx ≤ b := hall idx (Nat.le_refl idx)
      have himp : improves (some b) (metric idx) = false := by
        simp only [improves, decide_eq_false_iff_not]
        omega
      simp only [esLoop]
      rw [himp, if_neg Bool.false_ne_true]
      by_cases hp2 : patience ≤ wait + 1
      · rw [if_pos hp2]
        omega
      · rw [if_neg hp2]
        rw [ih (idx + 1) (wait + 1) (fun j hj => hall j (by omega)) (by omega)]
        omega

/-- When the monitored metric strictly improves through epoch k and
never improves afterwards, the run completes exactly
min (k + patience) maxEpochs epochs. -/
lemma epochsRun_eq (metric : Nat → Int) (k patience maxEpochs : Nat)
    (hk : 1 ≤ k) (hpat : 1 ≤ patience)
    (h1 : ∀ i, i + 1 < k → metric i < metric (i + 1))
    (h2 : ∀ i, k ≤ i → metric i ≤ metric (k - 1)) :
    epochsRun metric maxEpochs patience = min (k + patience) maxEpochs := by
  cases maxEpochs with
  | zero => simp [epochsRun, esLoop]
  | succ m =>
      have h0 : improves none (metric 0) = true := rfl
      show esLoop metric patience (m + 1) 0 none 0 = _
      simp only [esLoop]
      rw [h0, if_pos rfl]
      simp only [Nat.zero_add]
      have hm0 : metric 0 = metric (1 - 1) := rfl
      rw [hm0]
      by_cases hcase : 1 + m ≤ k
      · rw [esLoop_inc_all metric patience k h1 m 1 (Nat.le_refl 1) hcase]
        omega
      · rw [esLoop_cross metric patience k h1 m 1 (Nat.le_refl 1) (by omega) (by omega)]
        rw [esLoop_fail metric patience (metric (k - 1)) (m - (k - 1)) k 0
          (fun j hj => h2 j hj) (by omega)]
        omega

/-- C9: for every hyperparameter set with a non-validation monitor and
shape-consistent training data, fit with only training data succeeds
and returns a history with exactly one row per completed epoch and at
most max_epochs rows. -/
theorem fit_train_only_history (hp : Hyper) (metric : Nat → Int)
    (train : KDataset)
    (hmon : strStartsWith hp.monitor "val_" = false)
    (hsh : shapesAgree train = true) :
    NeuralNetwork.fit hp metric train none =
      Except.ok (EngineResult.mk
        (List.range (epochsRun metric hp.max_epochs hp.patience))
        (epochsRun metric hp.max_epochs hp.patience)) ∧
    epochsRun metric hp.max_epochs hp.patience ≤ hp.max_epochs := by
  constructor
  · simp [NeuralNetwork.fit, hmon, engineFit, hsh, mkEarlyStopping]
  · have h := esLoop_le metric hp.patience hp.max_epochs 0 none 0
    simpa [epochsRun] using h

/-- C9 witness: a concrete trainer with monitor "auprc", max_epochs 2
and consistent 4-row training data. -/
theorem fit_train_only_history_witness :
    strStartsWith "auprc" "val_" = false ∧
    shapesAgree (KDataset.mk [4] 4) = true ∧
    (NeuralNetwork.fit (Hyper.mk 2 64 "auprc" 10) (fun _ => 0)
        (KDataset.mk [4] 4) none =
      Except.ok (EngineResult.mk
        (List.range (epochsRun (fun _ => 0) 2 10))
        (epochsRun (fun _ => 0) 2 10)) ∧
      epochsRun (fun _ => 0) 2 10 ≤ 2) :=
  And.intro (by decide)
    (And.intro (by decide)
      (fit_train_only_history (Hyper.mk 2 64 "auprc" 10) (fun _ => 0)
        (KDataset.mk [4] 4) (by decide) (by decide)))

/-- C4: in a run whose monitored metric improves through epoch k and
never improves afterwards, under a passing gate and consistent shapes,
training terminates at epoch k + patience (or max_epochs, whichever is
smaller), the history has one row per epoch actually run, and the final
parameters are those of the last epoch run (EarlyStopping is built
without best-weight restoration, so there is no roll-back). -/
theorem fit_early_stopping (hp : Hyper) (metric : Nat → Int)
    (train : KDataset) (k : Nat)
    (hmon : strStartsWith hp.monitor "val_" = false)
    (hsh : shapesAgree train = true)
    (hk : 1 ≤ k) (hpat : 1 ≤ hp.patience)
    (h1 : ∀ i, i + 1 < k → metric i < metric (i + 1))
    (h2 : ∀ i, k ≤ i → metric i ≤ metric (k - 1)) :
    NeuralNetwork.fit hp metric train none =
      Except.ok (EngineResult.mk
        (List.range (min (k + hp.patience) hp.max_epochs))
        (min (k + hp.patience) hp.max_epochs)) := by
  have hrun := epochsRun_eq metric k hp.patience hp.max_epochs hk hpat h1 h2
  simp [NeuralNetwork.fit, hmon, engineFit, hsh, mkEarlyStopping, hrun]

/-- A monitored-metric trace that improves through epoch 3 and never
improves afterwards. -/
def stepMetric : Nat → Int := fun i => if i < 3 then (i : Int) else 0

/-- C4 witness: with patience 2 and max_epochs 10, a metric that last
improves at epoch 3 stops the concrete run after min (3 + 2) 10 = 5
epochs, keeping the last epoch's parameters. -/
theorem fit_early_stopping_witness :
    strStartsWith "auprc" "val_" = false ∧
    shapesAgree (KDataset.mk [6] 6) = true ∧
    (1 : Nat) ≤ 3 ∧ (1 : Nat) ≤ 2 ∧
    (∀ i, i + 1 < 3 → stepMetric i < stepMetric (i + 1)) ∧
    (∀ i, 3 ≤ i → stepMetric i ≤ stepMetric (3 - 1)) ∧
    NeuralNetwork.fit (Hyper.mk 10 64 "auprc" 2) stepMetric
        (KDataset.mk [6] 6) none =
      Except.ok (EngineResult.mk
        (List.range (min (3 + 2) 10)) (min (3 + 2) 10)) := by
  have h1 : ∀ i, i + 1 < 3 → stepMetric i < stepMetric (i + 1) := by
    intro i hi
    have hi2 : i < 2 := by omega
    interval_cases i <;> norm_num [stepMetric]
  have h2 : ∀ i, 3 ≤ i → stepMetric i ≤ stepMetric (3 - 1) := by
    intro i hi
    have hni : ¬ (i < 3) := by omega
    norm_num [stepMetric, hni]
  refine And.intro (by decide) (And.intro (by decide) (And.intro (by norm_num)
    (And.intro (by norm_num) (And.intro h1 (And.intro h2 ?_)))))
  exact fit_early_stopping (Hyper.mk 10 64 "auprc" 2) stepMetric
    (KDataset.mk [6] 6) 3 (by decide) (by decide) (by norm_num) (by norm_num) h1 h2
